import Mathlib

/-!
Verification of the firewall-manager frontend's parsing and command-mapping
logic (src/firewall_manager/app.py), shallowly embedded in Lean 4.

Strings are modelled as Lean `String`s; most of the work happens on their
`List Char` data. Python's `str.strip` and the regex classes `\s` / `\w`
are modelled over the ASCII characters that can occur in the tool's output.
Subprocess interaction is modelled by passing the outcome of each
`subprocess.run` call explicitly as an `Except` value: `Except.error e`
stands for a raised exception whose string rendering is `e`.
-/

namespace FirewallManager

set_option maxRecDepth 16384

/-- ASCII whitespace as matched by Python's `\s` and stripped by `str.strip`. -/
def isPySpace (c : Char) : Bool :=
  c = ' ' || c = '\t' || c = '\n' || c = '\r' || c = '\x0b' || c = '\x0c'

/-- Python `str.strip()` on a character list: drop whitespace at both ends. -/
def pyStrip (l : List Char) : List Char :=
  ((l.dropWhile isPySpace).reverse.dropWhile isPySpace).reverse

/-- Python `str.strip()` on a `String`. -/
def pyStripS (s : String) : String := String.mk (pyStrip s.data)

/-- Python's substring test `pat in s` (contiguous substring). -/
def hasSub : List Char → List Char → Bool
  | [], pat => pat.isEmpty
  | s@(_ :: t), pat => pat.isPrefixOf s || hasSub t pat

/-- Worker for `splitCols`: `cur` is the reversed current column, `spaces`
the pending run of whitespace not yet classified as a separator. A run of
two or more whitespace characters separates columns (as `re.split` with
the pattern of a whitespace run of length at least 2); a single whitespace
character stays inside the column. -/
def splitColsGo : List Char → List Char → List Char → List (List Char)
  | cur, spaces, [] =>
    if 2 ≤ spaces.length then [cur.reverse, []]
    else [(spaces ++ cur).reverse]
  | cur, spaces, c :: rest =>
    if isPySpace c then splitColsGo cur (c :: spaces) rest
    else if 2 ≤ spaces.length then cur.reverse :: splitColsGo [c] [] rest
    else splitColsGo (c :: (spaces ++ cur)) [] rest

/-- Python `re.split` on a run of two-or-more whitespace characters. -/
def splitCols (l : List Char) : List (List Char) := splitColsGo [] [] l

/-- Python `output.split("\n")`: split at every newline, keeping empties. -/
def splitOnNl : List Char → List (List Char)
  | [] => [[]]
  | c :: rest =>
    if c = '\n' then [] :: splitOnNl rest
    else
      match splitOnNl rest with
      | [] => [[c]]
      | l :: ls => (c :: l) :: ls

/-- ASCII word character, as matched by the regex class `\w`. -/
def isWordChar (c : Char) : Bool := c.isAlphanum || c = '_'

/-- Consume an exact literal at the head of the input, returning the rest. -/
def dropLit : List Char → List Char → Option (List Char)
  | [], s => some s
  | _ :: _, [] => none
  | p :: ps, c :: cs => if c = p then dropLit ps cs else none

/-- Greedily skip whitespace, as the regex piece for a whitespace run of
any length does here (the following pieces cannot match whitespace). -/
def skipWs (l : List Char) : List Char := l.dropWhile isPySpace

/-- Match the default-policy pattern of `parse_ufw_status` anchored at the
start of `s`: literal "Default:", whitespace, a word, whitespace, literal
"(incoming),", whitespace, a word, whitespace, literal "(outgoing)".
Greedy matching is exact because the character classes involved are
disjoint from the literals that follow them. Returns the two word groups. -/
def matchDefaultAt (s : List Char) : Option (List Char × List Char) :=
  match dropLit "Default:".data s with
  | none => none
  | some s1 =>
    let s2 := skipWs s1
    let w1 := s2.takeWhile isWordChar
    let s3 := s2.dropWhile isWordChar
    if w1.isEmpty then none
    else
      match dropLit "(incoming),".data (skipWs s3) with
      | none => none
      | some s4 =>
        let s5 := skipWs s4
        let w2 := s5.takeWhile isWordChar
        let s6 := s5.dropWhile isWordChar
        if w2.isEmpty then none
        else
          match dropLit "(outgoing)".data (skipWs s6) with
          | none => none
          | some _ => some (w1, w2)

/-- `re.search` for the default-policy pattern: leftmost match. -/
def searchDefault : List Char → Option (List Char × List Char)
  | [] => none
  | s@(_ :: t) =>
    match matchDefaultAt s with
    | some r => some r
    | none => searchDefault t

/-- Match the logging pattern anchored at the start of `s`: literal
"Logging:", whitespace, a word. Returns the word group. -/
def matchLoggingAt (s : List Char) : Option (List Char) :=
  match dropLit "Logging:".data s with
  | none => none
  | some s1 =>
    let w := (skipWs s1).takeWhile isWordChar
    if w.isEmpty then none else some w

/-- `re.search` for the logging pattern: leftmost match. -/
def searchLogging : List Char → Option (List Char)
  | [] => none
  | s@(_ :: t) =>
    match matchLoggingAt s with
    | some r => some r
    | none => searchLogging t

/-- One parsed firewall rule (a dict in the Python source). -/
structure Rule where
  «to» : String
  action : String
  «from» : String
  raw : String
deriving DecidableEq

/-- The structured status record built by `parse_ufw_status`. -/
structure FirewallStatus where
  active : Bool
  default_incoming : String
  default_outgoing : String
  logging : String
  rules : List Rule
  raw : String
deriving DecidableEq

/-- Python `line.startswith("--")`. -/
def startsDashes (l : List Char) : Bool :=
  match l with
  | '-' :: '-' :: _ => true
  | _ => false

/-- The rule-parsing loop of `parse_ufw_status`: walk the lines with the
`in_rules` flag; a line starting with "--" sets the flag and is skipped;
once the flag is set, every line whose stripped form is non-empty is split
into columns, and kept as a rule when it has at least 3 columns. -/
def parseRulesGo : Bool → List (List Char) → List Rule
  | _, [] => []
  | inRules, line :: rest =>
    if startsDashes line then parseRulesGo true rest
    else if inRules && !(pyStrip line).isEmpty then
      let stripped := pyStrip line
      let parts := splitCols stripped
      if 3 ≤ parts.length then
        { «to» := String.mk (parts.getD 0 []),
          action := String.mk (parts.getD 1 []),
          «from» := String.mk (parts.getD 2 []),
          raw := String.mk stripped } :: parseRulesGo inRules rest
      else parseRulesGo inRules rest
    else parseRulesGo inRules rest

/-- `parse_ufw_status` from app.py: parse `ufw status verbose` output into
a `FirewallStatus`, with defaults retained wherever a pattern fails. -/
def parse_ufw_status (output : String) : FirewallStatus :=
  { active := hasSub output.data ("Status: active").data,
    default_incoming :=
      match searchDefault output.data with
      | some (a, _) => String.mk a
      | none => "deny",
    default_outgoing :=
      match searchDefault output.data with
      | some (_, b) => String.mk b
      | none => "allow",
    logging :=
      match searchLogging output.data with
      | some w => String.mk w
      | none => "off",
    rules := parseRulesGo false (splitOnNl output.data),
    raw := output }

/-- `run_ufw` from app.py, with the subprocess call's outcome passed in:
on success the stripped stdout and stderr are joined with a newline, on a
raised exception the exception text is returned behind "Error: ". -/
def run_ufw (outcome : Except String (String × String)) : String :=
  match outcome with
  | Except.ok (stdout, stderr) => pyStripS stdout ++ "\n" ++ pyStripS stderr
  | Except.error e => "Error: " ++ e

/-- `get_ufw_status` from app.py: try `sudo ufw status verbose`; when its
stripped stdout is empty, fall back to a `pkexec` attempt; any raised
exception in the `try` block yields "Error: " plus the exception text. -/
def get_ufw_status (sudoTry pkexecTry : Except String String) : String :=
  match sudoTry with
  | Except.error e => "Error: " ++ e
  | Except.ok out1 =>
    let output := pyStripS out1
    if output = "" then
      match pkexecTry with
      | Except.error e => "Error: " ++ e
      | Except.ok out2 => pyStripS out2
    else output

/-- `AddRuleDialog._on_add` from app.py: strip the three text entries; with
an empty port token no result is produced; otherwise build the ufw argv,
routing through `from <addr> to any port <port>` when a source is given,
and appending `comment <text>` when a comment is given. -/
def on_add (action direction portText fromText commentText : String) :
    Option (List String) :=
  let port := pyStripS portText
  let from_addr := pyStripS fromText
  let comment := pyStripS commentText
  if port = "" then none
  else
    let cmd1 := [action, direction]
    let cmd2 :=
      if from_addr ≠ "" then cmd1 ++ ["from", from_addr, "to", "any", "port", port]
      else cmd1 ++ [port]
    let cmd3 := if comment ≠ "" then cmd2 ++ ["comment", comment] else cmd2
    some cmd3

/-- `_on_delete_rule` from app.py: the argv run for a 1-based rule index. -/
def on_delete_rule (index : Nat) : List String :=
  ["--force", "delete", toString index]

/-- `_update_ui` from app.py attaches index `i + 1` to the `i`-th parsed
rule's delete button; this is the delete argv each rule row would run. -/
def update_ui_delete_argvs (rules : List Rule) : List (List String) :=
  (List.range rules.length).map (fun i => on_delete_rule (i + 1))

/-- `_on_cmd_done` from app.py: the message put in the status line is the
result stripped and truncated to its first 100 characters. -/
def on_cmd_done_message (result : String) : String := (pyStripS result).take 100

/-- `_on_cmd_done` from app.py as a pair: the surfaced message, and the
fact that `_refresh()` is invoked unconditionally afterwards. -/
def on_cmd_done (result : String) : String × Bool := (on_cmd_done_message result, true)

/-- `_set_status` from app.py: the status label is the message behind a
timestamp. -/
def set_status_label (ts msg : String) : String := "[" ++ ts ++ "] " ++ msg

/-- Specification-level reading of one candidate rule line: a line starting
with "--" is a separator and yields no rule; otherwise the line is stripped,
split on runs of two-or-more whitespace characters, and kept as a rule
exactly when it is non-blank and has at least 3 columns. -/
def lineRuleSpec (line : List Char) : Option Rule :=
  if startsDashes line then none
  else if !(pyStrip line).isEmpty then
    let stripped := pyStrip line
    let parts := splitCols stripped
    if 3 ≤ parts.length then
      some { «to» := String.mk (parts.getD 0 []),
             action := String.mk (parts.getD 1 []),
             «from» := String.mk (parts.getD 2 []),
             raw := String.mk stripped }
    else none
  else none

/-- Specification-level rule list: the candidate lines are those after the
first line starting with "--", and each contributes via `lineRuleSpec`. -/
def rulesSpec (lines : List (List Char)) : List Rule :=
  ((lines.dropWhile (fun l => !startsDashes l)).drop 1).filterMap lineRuleSpec

lemma data_mk (l : List Char) : (String.mk l).data = l := rfl

lemma parseRulesGo_true (lines : List (List Char)) :
    parseRulesGo true lines = lines.filterMap lineRuleSpec := by
  induction lines with
  | nil => rfl
  | cons l rest ih =>
    by_cases h1 : startsDashes l
    · simp [parseRulesGo, lineRuleSpec, List.filterMap_cons, h1, ih]
    · by_cases h2 : (pyStrip l).isEmpty
      · simp [parseRulesGo, lineRuleSpec, List.filterMap_cons, h1, h2, ih]
      · by_cases h3 : 3 ≤ (splitCols (pyStrip l)).length
        · simp [parseRulesGo, lineRuleSpec, List.filterMap_cons, h1, h2, h3, ih]
        · simp [parseRulesGo, lineRuleSpec, List.filterMap_cons, h1, h2, h3, ih]

lemma parseRulesGo_false (lines : List (List Char)) :
    parseRulesGo false lines = rulesSpec lines := by
  induction lines with
  | nil => rfl
  | cons l rest ih =>
    by_cases h1 : startsDashes l
    · simp [parseRulesGo, rulesSpec, List.dropWhile_cons, h1, parseRulesGo_true]
    · simpa [parseRulesGo, rulesSpec, List.dropWhile_cons, h1] using ih

lemma parse_rules_eq (output : String) :
    (parse_ufw_status output).rules = rulesSpec (splitOnNl output.data) :=
  parseRulesGo_false _

/-- C1, counterexample. The claim says every non-blank line after the dash
separator line is split (as the line stands) on runs of two-or-more
whitespace, and appended as a rule whenever the split has at least 3
columns. The code disagrees twice: (1) on `"--\n--  ALLOW IN  Anywhere"`
the second line is non-blank, sits after the separator and splits into the
3 columns `["--", "ALLOW IN", "Anywhere"]`, yet no rule is produced,
because any line starting with "--" is treated as a separator; (2) on
`"--\n  22/tcp    ALLOW IN    Anywhere"` the second line's own split has
first column `""` (its leading whitespace run is a separator for
`re.split`), yet the rule produced has `to = "22/tcp"`, because the code
strips the line before splitting. -/
theorem claim1_counterexample :
    (parse_ufw_status "--\n--  ALLOW IN  Anywhere").rules = []
    ∧ 3 ≤ (splitCols ("--  ALLOW IN  Anywhere").data).length
    ∧ (parse_ufw_status "--\n  22/tcp    ALLOW IN    Anywhere").rules =
        [{ «to» := "22/tcp", action := "ALLOW IN", «from» := "Anywhere",
           raw := "22/tcp    ALLOW IN    Anywhere" }]
    ∧ (splitCols ("  22/tcp    ALLOW IN    Anywhere").data).getD 0 [] = [] := by
  refine ⟨by decide, by decide, ?_, by decide⟩
  decide

/-- C1, amended: each line after the first line starting with "--" that
does not itself start with "--" is stripped of surrounding whitespace and
split on runs of two-or-more whitespace characters; if it is non-blank and
the split yields at least 3 columns, a rule is appended with `to` the
first column, `action` the second and `from` the third; lines yielding
fewer than 3 columns, and lines starting with "--", are silently dropped
with no error. In particular the separator followed by the line
`"22/tcp    ALLOW IN    Anywhere"` yields exactly one rule with
`to = "22/tcp"`, `action = "ALLOW IN"`, `from = "Anywhere"`. -/
theorem claim1 :
    (∀ output : String,
      (parse_ufw_status output).rules = rulesSpec (splitOnNl output.data))
    ∧ (parse_ufw_status "--\n22/tcp    ALLOW IN    Anywhere").rules =
        [{ «to» := "22/tcp", action := "ALLOW IN", «from» := "Anywhere",
           raw := "22/tcp    ALLOW IN    Anywhere" }] := by
  refine ⟨parse_rules_eq, ?_⟩
  decide

/-- C2: with a non-empty stripped port token the add-rule argv is
`[action, direction, "from", addr, "to", "any", "port", port]` when the
stripped source address is non-empty and `[action, direction, port]`
otherwise, with `["comment", comment]` appended exactly when the stripped
comment is non-empty. -/
theorem claim2 (action direction portText fromText commentText : String)
    (hp : pyStripS portText ≠ "") :
    on_add action direction portText fromText commentText =
      some ((if pyStripS fromText = ""
              then [action, direction, pyStripS portText]
              else [action, direction, "from", pyStripS fromText,
                    "to", "any", "port", pyStripS portText])
        ++ (if pyStripS commentText = "" then []
            else ["comment", pyStripS commentText])) := by
  by_cases hf : pyStripS fromText = "" <;> by_cases hc : pyStripS commentText = "" <;>
    simp [on_add, hp, hf, hc]

/-- C2, witness: the two intents named in the claim produce exactly the
argvs the claim names. -/
theorem claim2_witness :
    on_add "allow" "in" "22" "" "" = some ["allow", "in", "22"]
    ∧ on_add "deny" "out" "80" "10.0.0.0/24" "blocklist" =
        some ["deny", "out", "from", "10.0.0.0/24", "to", "any", "port", "80",
              "comment", "blocklist"] :=
  ⟨(claim2 "allow" "in" "22" "" "" (by decide)).trans (by decide),
   (claim2 "deny" "out" "80" "10.0.0.0/24" "blocklist" (by decide)).trans (by decide)⟩

/-- C3: the parsed `active` flag is exactly the presence of the substring
"Status: active" in the output; in particular an output carrying the token
parses as active and "Status: inactive" parses as inactive. -/
theorem claim3 (output : String) :
    (parse_ufw_status output).active = hasSub output.data ("Status: active").data
    ∧ (parse_ufw_status "Status: active\nLogging: on (low)").active = true
    ∧ (parse_ufw_status "Status: inactive").active = false :=
  ⟨rfl, by decide, by decide⟩

/-- C4: the status parser is a total function (so no input can make it
raise), it retains the raw input, and on empty input — as on any input
where every pattern fails — it returns `active = false`, the default
policies "deny"/"allow", logging "off" and an empty rule list. -/
theorem claim4 :
    (∀ output : String, (parse_ufw_status output).raw = output)
    ∧ parse_ufw_status "" =
        { active := false, default_incoming := "deny", default_outgoing := "allow",
          logging := "off", rules := [], raw := "" }
    ∧ parse_ufw_status "%% not ufw output %%" =
        { active := false, default_incoming := "deny", default_outgoing := "allow",
          logging := "off", rules := [], raw := "%% not ufw output %%" } :=
  ⟨fun _ => rfl, by decide, by decide⟩

/-- C5: when the default-policy pattern matches somewhere in the output,
`default_incoming` and `default_outgoing` are its two word groups; when it
matches nowhere, the defaults "deny" and "allow" are retained. -/
theorem claim5 (output : String) (a b : List Char) :
    (searchDefault output.data = some (a, b) →
      (parse_ufw_status output).default_incoming = String.mk a
      ∧ (parse_ufw_status output).default_outgoing = String.mk b)
    ∧ (searchDefault output.data = none →
      (parse_ufw_status output).default_incoming = "deny"
      ∧ (parse_ufw_status output).default_outgoing = "allow") := by
  constructor
  · intro h
    constructor <;> simp [parse_ufw_status, h]
  · intro h
    constructor <;> simp [parse_ufw_status, h]

/-- C5, witness: the pattern matches on the claim's example output and the
two words are extracted; it does not match on unrelated text and the
defaults survive. -/
theorem claim5_witness :
    (parse_ufw_status "Default: deny (incoming), allow (outgoing)").default_incoming
        = "deny"
    ∧ (parse_ufw_status "Default: deny (incoming), allow (outgoing)").default_outgoing
        = "allow"
    ∧ (parse_ufw_status "no defaults here").default_incoming = "deny"
    ∧ (parse_ufw_status "no defaults here").default_outgoing = "allow" := by
  have h1 := (claim5 "Default: deny (incoming), allow (outgoing)"
      ("deny").data ("allow").data).1 (by decide)
  have h2 := (claim5 "no defaults here" [] []).2 (by decide)
  exact ⟨h1.1, h1.2, h2.1, h2.2⟩

/-- C6: deleting the rule at 1-based index `i` always produces the argv
`["--force", "delete", str(i)]`; the UI attaches index `i + 1` to the
`i`-th rule of the parsed list; and index 3 yields
`["--force", "delete", "3"]`. -/
theorem claim6 :
    (∀ index : Nat, on_delete_rule index = ["--force", "delete", toString index])
    ∧ (∀ (rules : List Rule) (i : Nat), i < rules.length →
        (update_ui_delete_argvs rules)[i]? = some (on_delete_rule (i + 1)))
    ∧ on_delete_rule 3 = ["--force", "delete", "3"] := by
  refine ⟨fun _ => rfl, ?_, by decide⟩
  intro rules i hi
  simp [update_ui_delete_argvs, List.getElem?_map, List.getElem?_range, hi]

/-- C6, witness: a one-rule list attaches index 1 to its only row, and the
resulting argv is `["--force", "delete", "1"]`. -/
theorem claim6_witness :
    (update_ui_delete_argvs
      [{ «to» := "22/tcp", action := "ALLOW IN", «from» := "Anywhere",
         raw := "22/tcp" }])[0]? = some ["--force", "delete", "1"] :=
  (claim6.2.1
    [{ «to» := "22/tcp", action := "ALLOW IN", «from» := "Anywhere",
       raw := "22/tcp" }] 0 (by decide)).trans (by decide)

/-- C7, counterexample. The claim says the text surfaced in the status
line is the command's combined output verbatim. On a command whose stdout
is 101 characters `a` the surfaced message differs from the combined
output: `_on_cmd_done` strips it and truncates it to its first 100
characters. -/
theorem claim7_counterexample :
    on_cmd_done_message (run_ufw (Except.ok (String.mk (List.replicate 101 'a'), "")))
      ≠ run_ufw (Except.ok (String.mk (List.replicate 101 'a'), "")) := by
  decide

/-- C7, amended: the execution result is stripped stdout, a newline, and
stripped stderr; the text surfaced in the status line is that result
stripped again and truncated to its first 100 characters, placed behind a
timestamp — not the result verbatim — and a status refresh is triggered
regardless of the result's content. -/
theorem claim7 (stdout stderr ts : String) :
    on_cmd_done (run_ufw (Except.ok (stdout, stderr))) =
      ((pyStripS (pyStripS stdout ++ "\n" ++ pyStripS stderr)).take 100, true)
    ∧ set_status_label ts (on_cmd_done_message (run_ufw (Except.ok (stdout, stderr))))
        = "[" ++ ts ++ "] "
          ++ (pyStripS (pyStripS stdout ++ "\n" ++ pyStripS stderr)).take 100 :=
  ⟨rfl, rfl⟩

/-- C8: a raised subprocess exception makes `run_ufw` return the exception
text behind "Error: " instead of propagating; the same holds for
`get_ufw_status`, whether the first attempt raises or the fallback attempt
(reached when the first stdout strips to empty) raises. -/
theorem claim8 (e o : String) (pkexecTry : Except String String) :
    run_ufw (Except.error e) = "Error: " ++ e
    ∧ get_ufw_status (Except.error e) pkexecTry = "Error: " ++ e
    ∧ (pyStripS o = "" →
        get_ufw_status (Except.ok o) (Except.error e) = "Error: " ++ e) := by
  refine ⟨rfl, rfl, fun h => ?_⟩
  simp [get_ufw_status, h]

/-- C8, witness: a concrete timeout exception in each position yields the
"Error: " string. -/
theorem claim8_witness :
    run_ufw (Except.error "timeout") = "Error: timeout"
    ∧ get_ufw_status (Except.error "timeout") (Except.ok "x") = "Error: timeout"
    ∧ get_ufw_status (Except.ok "   ") (Except.error "timeout") = "Error: timeout" :=
  ⟨(claim8 "timeout" "   " (Except.ok "x")).1,
   (claim8 "timeout" "   " (Except.ok "x")).2.1,
   (claim8 "timeout" "   " (Except.ok "x")).2.2 (by decide)⟩

/-- C9: every rule the parser produces carries as its `from` field the
third column of its own (stripped) rule line — the source token — and that
line always has at least 3 columns, so a line with no source column never
produces a rule at all. -/
theorem claim9 (output : String) (r : Rule)
    (h : r ∈ (parse_ufw_status output).rules) :
    3 ≤ (splitCols r.raw.data).length
    ∧ r.«from» = String.mk ((splitCols r.raw.data).getD 2 []) := by
  rw [parse_rules_eq] at h
  obtain ⟨l, -, hfl⟩ := List.mem_filterMap.mp h
  unfold lineRuleSpec at hfl
  split at hfl
  · exact Option.noConfusion hfl
  · split at hfl
    · dsimp only at hfl
      split at hfl
      · injection hfl with hr
        subst hr
        refine ⟨?_, rfl⟩
        exact ‹3 ≤ (splitCols (pyStrip l)).length›
      · exact Option.noConfusion hfl
    · exact Option.noConfusion hfl

/-- C9, witness: the rule parsed from the line
`"22/tcp    ALLOW IN    Anywhere"` has `from = "Anywhere"`, the third
column of its line. -/
theorem claim9_witness :
    3 ≤ (splitCols ("22/tcp    ALLOW IN    Anywhere" : String).data).length
    ∧ ("Anywhere" : String)
        = String.mk ((splitCols ("22/tcp    ALLOW IN    Anywhere" : String).data).getD 2 []) :=
  claim9 "--\n22/tcp    ALLOW IN    Anywhere"
    { «to» := "22/tcp", action := "ALLOW IN", «from» := "Anywhere",
      raw := "22/tcp    ALLOW IN    Anywhere" } (by decide)

/-- C10: when the stripped port/service token is empty, the add-rule
dialog produces no argv at all, whatever the other fields hold. -/
theorem claim10 (action direction portText fromText commentText : String)
    (hp : pyStripS portText = "") :
    on_add action direction portText fromText commentText = none := by
  simp [on_add, hp]

/-- C10, witness: a whitespace-only port entry produces no argv even with
all other fields filled in. -/
theorem claim10_witness :
    on_add "allow" "in" "   " "10.0.0.0/24" "note" = none :=
  claim10 "allow" "in" "   " "10.0.0.0/24" "note" (by decide)

end FirewallManager
